import Mathlib

/-!
Verification of the sampling and remote-configuration subsystem of the
dd-trace-go tracing library. The data model and the operations are embedded
shallowly: pure Go functions become Lean functions, the layered-configuration
state machine becomes explicit state passing, and float sample rates are
represented as exact rationals. The Go implementation of this subsystem is
not part of the checked-in sources here (only its test suite is), so the
operational definitions are modelled from the specification document, and
each such definition says so in its doc comment.
-/

namespace tracer

/-- Modelled from the spec: the GlobPattern matcher of the rule engine (the
Go glob compiler itself is absent from the sources, only its callers and
tests are present). A star wildcard matches zero or more characters, a
question mark matches exactly one character, every other character matches
itself literally, and matching is anchored to the full input string. -/
def globMatchL : List Char → List Char → Bool
  | [], s => s.isEmpty
  | p :: ps, s =>
    if p = '*' then
      s.tails.any fun t => globMatchL ps t
    else
      match s with
      | [] => false
      | c :: t => (p == '?' || p == c) && globMatchL ps t

/-- Modelled from the spec: matching a glob pattern string against an input
string, anchored to the whole input. -/
def globMatch (pattern input : String) : Bool :=
  globMatchL pattern.toList input.toList

/-- Provenance of a sampling rule: unset (local default), customer-authored
remote rule, dynamically computed remote rule, or a local/env rule. -/
inductive Provenance where
  | unset
  | customer
  | dynamic
  | localEnv
deriving DecidableEq, Repr

/-- Modelled from the spec: a single sampling rule. Pattern fields are the
source pattern strings of the compiled matchers (absent means match-any),
tags map tag names to glob patterns, and the sample rate is an exact
rational in place of the Go float64. -/
structure SamplingRule where
  Service : Option String
  Name : Option String
  Resource : Option String
  Tags : List (String × String)
  Rate : ℚ
  provenance : Provenance
deriving DecidableEq, Repr

/-- Modelled from the spec: equality of two compiled matchers compares the
source pattern strings only, never the matched languages; a nil matcher is
equal only to a nil matcher. This mirrors the Go helper of the same name. -/
def regexEqualsFalseNegative : Option String → Option String → Bool
  | none, none => true
  | some a, some b => a == b
  | _, _ => false

/-- Modelled from the spec: order-irrelevant equality of two tag-pattern
maps, represented as association lists. -/
def tagsEqual (a b : List (String × String)) : Bool :=
  (a.all fun p => decide (p ∈ b)) && (b.all fun p => decide (p ∈ a))

/-- Modelled from the spec: field-wise equality of two (possibly nil)
sampling rules; nil versus non-nil is always unequal, nil versus nil is
equal, and every pattern field is compared by source string. -/
def SamplingRule.Equals : Option SamplingRule → Option SamplingRule → Bool
  | none, none => true
  | none, some _ => false
  | some _, none => false
  | some a, some b =>
    regexEqualsFalseNegative a.Service b.Service &&
    regexEqualsFalseNegative a.Name b.Name &&
    regexEqualsFalseNegative a.Resource b.Resource &&
    tagsEqual a.Tags b.Tags &&
    decide (a.Rate = b.Rate) &&
    decide (a.provenance = b.provenance)

/-- Modelled from the spec: equality of two rule slices, sensitive to length
and to the order of the rules. -/
def Equals (rules1 rules2 : List SamplingRule) : Bool :=
  (rules1.length == rules2.length) &&
    (List.zip rules1 rules2).all fun p => SamplingRule.Equals (some p.1) (some p.2)

/-- A span as the sampler sees it: service, operation name, resource, and
the tag values set on it. -/
structure Span where
  service : String
  name : String
  resource : String
  tags : List (String × String)
deriving DecidableEq, Repr

/-- Look up a key in an association list of tags. -/
def tagLookup (tags : List (String × String)) (k : String) : Option String :=
  (tags.find? (fun p => p.1 == k)).map (fun p => p.2)

/-- Modelled from the spec: an absent pattern matches anything, a present
pattern must glob-match the input. -/
def patMatches (pat : Option String) (input : String) : Bool :=
  match pat with
  | none => true
  | some p => globMatch p input

/-- Modelled from the spec: a rule matches a span when the service, name and
resource patterns match (absent means match-any) and every declared tag
pattern matches the corresponding tag value on the span; a declared tag
absent from the span fails the match. -/
def SamplingRule.matches (r : SamplingRule) (s : Span) : Bool :=
  patMatches r.Service s.service &&
  patMatches r.Name s.name &&
  patMatches r.Resource s.resource &&
  r.Tags.all fun kp =>
    match tagLookup s.tags kp.1 with
    | some v => globMatch kp.2 v
    | none => false

/-- Modelled from the spec: the rate the RulesSampler applies to a span is
the rate of the first rule, in declaration order, that matches the span;
when no rule matches it is the global fallback rate. -/
def rulesSamplerRate (rules : List SamplingRule) (fallback : ℚ) (s : Span) : ℚ :=
  match rules.find? (fun r => r.matches s) with
  | some r => r.Rate
  | none => fallback

/-- Pick the first populated option: the cross-layer precedence combinator. -/
def firstSome {α : Type} : Option α → Option α → Option α
  | some x, _ => some x
  | none, b => b

/-- Modelled from the spec: one configuration layer (code, local/env or
remote), each field optionally populated. -/
structure ConfigLayer where
  sampleRate : Option ℚ
  rules : Option (List SamplingRule)
  headerTags : Option (List (String × String))
  globalTags : Option (List (String × String))
  enabled : Option Bool
deriving DecidableEq, Repr

/-- The empty layer: no field populated. -/
def ConfigLayer.empty : ConfigLayer :=
  ⟨none, none, none, none, none⟩

/-- Modelled from the spec: the layering state of the tracer configuration —
tracer identity, the three configuration layers, and the one-way enabled
latch tracking the currently effective enabled flag. -/
structure TracerConfig where
  serviceName : String
  envName : String
  runtimeID : String
  code : ConfigLayer
  env : ConfigLayer
  remote : ConfigLayer
  enabledCurrent : Bool
deriving DecidableEq, Repr

/-- Effective sample rate across layers, before the default applies. -/
def effSampleRateOpt (c : TracerConfig) : Option ℚ :=
  firstSome c.remote.sampleRate (firstSome c.env.sampleRate c.code.sampleRate)

/-- Modelled from the spec: the global fallback sample rate is the remote
rate when set, else the environment/code rate, else the default 1.0. -/
def globalSampleRate (c : TracerConfig) : ℚ :=
  (effSampleRateOpt c).getD 1

/-- Effective rule list across layers, before the empty default applies. -/
def effRulesOpt (c : TracerConfig) : Option (List SamplingRule) :=
  firstSome c.remote.rules (firstSome c.env.rules c.code.rules)

/-- Effective rule list: layered value, defaulting to no rules. -/
def effRules (c : TracerConfig) : List SamplingRule :=
  (effRulesOpt c).getD []

/-- Effective header-tag mapping across layers. -/
def effHeaderTagsOpt (c : TracerConfig) : Option (List (String × String)) :=
  firstSome c.remote.headerTags (firstSome c.env.headerTags c.code.headerTags)

/-- Effective global-tag mapping across layers, before the runtime-id tag is
appended. -/
def effGlobalTagsOpt (c : TracerConfig) : Option (List (String × String)) :=
  firstSome c.remote.globalTags (firstSome c.env.globalTags c.code.globalTags)

/-- Modelled from the spec: the effective global tags always include an
injected runtime-identifier tag. -/
def effGlobalTags (c : TracerConfig) : List (String × String) :=
  (effGlobalTagsOpt c).getD [] ++ [("runtime-id", c.runtimeID)]

/-- Enabled flag across layers, defaulting to true. -/
def layeredEnabled (c : TracerConfig) : Bool :=
  (firstSome c.remote.enabled (firstSome c.env.enabled c.code.enabled)).getD true

/-- Modelled from the spec: the rate applied to a span under a configuration
is the RulesSampler decision over the effective rules with the effective
global rate as fallback. -/
def appliedRate (c : TracerConfig) (s : Span) : ℚ :=
  rulesSamplerRate (effRules c) (globalSampleRate c) s

/-- Telemetry value of a configuration-change event. -/
inductive TelemetryValue where
  | null
  | num (q : ℚ)
  | str (s : String)
  | boolean (b : Bool)
deriving DecidableEq, Repr

/-- One telemetry configuration-change event: field name, new value, and
origin ("remote_config" when sourced from the remote layer, else ""). -/
structure Configuration where
  name : String
  value : TelemetryValue
  origin : String
deriving DecidableEq, Repr

/-- Render an association list as comma-separated key:value text. -/
def renderPairs (l : List (String × String)) : String :=
  String.intercalate "," (l.map fun p => p.1 ++ ":" ++ p.2)

/-- Render one sampling rule for telemetry. -/
def renderRule (r : SamplingRule) : String :=
  (r.Service.getD "") ++ " " ++ (r.Name.getD "") ++ " " ++ (r.Resource.getD "") ++
    " " ++ renderPairs r.Tags ++ " " ++ toString r.Rate

/-- Render a rule list for telemetry. -/
def renderRules (l : List SamplingRule) : String :=
  String.intercalate " " (l.map renderRule)

/-- Origin recorded for a field: "remote_config" when the remote layer
populates it, "" when the value fell back to a non-remote source. -/
def originFor {α : Type} (o : Option α) : String :=
  if o.isSome then "remote_config" else ""

/-- Modelled from the spec: the telemetry batch describing every field whose
effective value changed between two configuration computations. -/
def telemetryDiff (old new : TracerConfig) : List Configuration :=
  (if effSampleRateOpt old = effSampleRateOpt new then [] else
    [⟨"trace_sample_rate",
      match effSampleRateOpt new with
      | some q => TelemetryValue.num q
      | none => TelemetryValue.null,
      originFor new.remote.sampleRate⟩]) ++
  (if effRulesOpt old = effRulesOpt new then [] else
    [⟨"trace_sample_rules", TelemetryValue.str (renderRules ((effRulesOpt new).getD [])),
      originFor new.remote.rules⟩]) ++
  (if effHeaderTagsOpt old = effHeaderTagsOpt new then [] else
    [⟨"trace_header_tags", TelemetryValue.str (renderPairs ((effHeaderTagsOpt new).getD [])),
      originFor new.remote.headerTags⟩]) ++
  (if effGlobalTags old = effGlobalTags new then [] else
    [⟨"trace_tags", TelemetryValue.str (renderPairs (effGlobalTags new)),
      originFor new.remote.globalTags⟩]) ++
  (if old.enabledCurrent = new.enabledCurrent then [] else
    [⟨"trace_enabled", TelemetryValue.boolean new.enabledCurrent,
      originFor new.remote.enabled⟩])

/-- Modelled from the spec: install a new remote layer and recompute the
derived state. The enabled flag is a one-way latch: the new effective flag
is the conjunction of the current flag with the layered flag, so a disable
can never be undone by a later update. -/
def recompute (c : TracerConfig) (newRemote : ConfigLayer) : TracerConfig :=
  let c' := { c with remote := newRemote }
  { c' with enabledCurrent := c.enabledCurrent && layeredEnabled c' }

/-- The application state returned per config path. -/
inductive ApplyState where
  | Unacknowledged
  | Acknowledged
  | Error
deriving DecidableEq, Repr

/-- The status returned for one config path: state plus error text. -/
structure ApplyStatus where
  state : ApplyState
  error : String
deriving DecidableEq, Repr

/-- A remote-config payload as received: either malformed bytes (carrying
the parse-error message the JSON decoder would produce) or a well-formed
document with a lib_config section and a service target. -/
inductive RawPayload where
  | malformed (msg : String)
  | wellFormed (lib : ConfigLayer) (targetService targetEnv : String)
deriving DecidableEq, Repr

/-- Modelled from the spec: parsing a payload into the expected document
schema; malformed bytes yield the decoder's error. -/
def parsePayload : RawPayload → Except String (ConfigLayer × String × String)
  | .malformed msg => .error msg
  | .wellFormed lib s e => .ok (lib, s, e)

/-- Modelled from the spec: applying one remote-config update. A nil payload
retracts the remote layer entirely; otherwise the payload is parsed, the
service target is validated against the tracer identity (service first,
then env), and only then is the remote layer replaced and the telemetry
diff emitted. Every validation failure short-circuits before any mutation
and before any telemetry emission. -/
def applyRemoteUpdate (c : TracerConfig) (payload : Option RawPayload) :
    ApplyStatus × TracerConfig × List Configuration :=
  match payload with
  | none =>
    let c' := recompute c ConfigLayer.empty
    (⟨ApplyState.Acknowledged, ""⟩, c', telemetryDiff c c')
  | some raw =>
    match parsePayload raw with
    | .error msg => (⟨ApplyState.Error, msg⟩, c, [])
    | .ok (lib, svc, env) =>
      if svc ≠ c.serviceName then (⟨ApplyState.Error, "service mismatch"⟩, c, [])
      else if env ≠ c.envName then (⟨ApplyState.Error, "env mismatch"⟩, c, [])
      else
        let c' := recompute c lib
        (⟨ApplyState.Acknowledged, ""⟩, c', telemetryDiff c c')

/-- Modelled from the spec: the multiplicative hashing constant used to hash
a trace identifier to a fixed-width integer. -/
def knuthFactor : ℕ := 1111111111111111111

/-- The exclusive upper bound of the 64-bit trace-identifier space. -/
def maxTraceID : ℕ := 2 ^ 64

/-- Modelled from the spec: the deterministic keep/drop decision computed
from a trace identifier and a rate — hash the identifier to a fixed-width
integer and compare it against the rate-scaled maximum. -/
def sampledByRate (traceID : ℕ) (rate : ℚ) : Bool :=
  decide (((traceID * knuthFactor) % maxTraceID : ℕ) < rate * (maxTraceID : ℚ))

/-- Modelled from the spec: a probabilistic sampler holding its configured
rate. -/
structure RateSampler where
  rate : ℚ
deriving DecidableEq, Repr

/-- Modelled from the spec: construct a rate sampler; rates outside the unit
interval are replaced by the default 1.0. -/
def newRateSampler (r : ℚ) : RateSampler :=
  if r < 0 ∨ 1 < r then ⟨1⟩ else ⟨r⟩

/-- A sampler instance decides a trace purely from its stored rate and the
trace identifier. -/
def RateSampler.sample (s : RateSampler) (traceID : ℕ) : Bool :=
  sampledByRate traceID s.rate

/-- The mechanisms that can produce a sampling decision. -/
inductive SamplerName where
  | Default
  | AgentRate
  | RemoteRate
  | RuleRate
  | Manual
  | AppSec
  | RemoteUserRule
  | RemoteDynamicRule
deriving DecidableEq, Repr

/-- Modelled from the spec: the numeric code identifying each deciding
mechanism in the decision-maker tag. -/
def samplerNameCode : SamplerName → ℕ
  | .Default => 0
  | .AgentRate => 1
  | .RemoteRate => 2
  | .RuleRate => 3
  | .Manual => 4
  | .AppSec => 5
  | .RemoteUserRule => 11
  | .RemoteDynamicRule => 12

/-- Modelled from the spec: render a sampler name as the decision-maker tag
value. -/
def samplerToDM (n : SamplerName) : String :=
  "-" ++ toString (samplerNameCode n)

/-- The trace-scoped propagating state the samplers write into: the
decision-maker tag, if any has been set. -/
structure TraceState where
  propagatingDM : Option String
deriving DecidableEq, Repr

/-- Modelled from the spec: one sampler acting on a trace writes the
decision-maker tag only when its decision is keep and no decision-maker tag
is already present; otherwise the trace state is untouched. -/
def setDecisionMaker (t : TraceState) (keep : Bool) (n : SamplerName) : TraceState :=
  if keep && t.propagatingDM.isNone then ⟨some (samplerToDM n)⟩ else t

/-- Run a sequence of samplers over a trace, in order; each step is the
keep/drop decision it produced and the mechanism that produced it. -/
def runSamplers (t : TraceState) (steps : List (Bool × SamplerName)) : TraceState :=
  steps.foldl (fun acc st => setDecisionMaker acc st.1 st.2) t

/-- Modelled from the spec: a child span carries the propagating tags of its
trace; starting a child copies the trace's decision-maker tag unchanged. -/
def childSpanDM (t : TraceState) : Option String :=
  t.propagatingDM

/-- A minimal span context: the propagated traceparent carrier value. -/
structure SpanContext where
  traceparent : String
deriving DecidableEq, Repr

/-- Modelled from the spec: extracting a span context from a carrier. A
disabled tracer is a no-op returning neither context nor error; an enabled
tracer looks up and validates the traceparent entry. -/
def tracerExtract (c : TracerConfig) (carrier : List (String × String)) :
    Except String (Option SpanContext) :=
  if c.enabledCurrent = false then .ok none
  else
    match tagLookup carrier "traceparent" with
    | none => .error "spancontext not found"
    | some tp => if tp.length = 55 then .ok (some ⟨tp⟩) else .error "malformed traceparent"

/-- Modelled from the spec: injecting a span context into a carrier. A
disabled tracer is a no-op returning no error; an enabled tracer rejects a
missing context. -/
def tracerInject (c : TracerConfig) (ctx : Option SpanContext) : Except String Unit :=
  if c.enabledCurrent = false then .ok ()
  else
    match ctx with
    | none => .error "invalid span context"
    | some _ => .ok ()

/-- Modelled from the spec: starting a span. A disabled tracer returns a nil
span; an enabled tracer creates a real span for its service. -/
def tracerStartSpan (c : TracerConfig) (opName : String) : Option Span :=
  if c.enabledCurrent = false then none
  else some ⟨c.serviceName, opName, opName, []⟩

/-- Fixture: a configuration with code and env layers populated, mirroring
the test tracer started with service "my-service" and env "my-env". -/
def baseConfig : TracerConfig :=
  { serviceName := "my-service"
    envName := "my-env"
    runtimeID := "rid-1"
    code := { sampleRate := some (mkRat 3 10), rules := none, headerTags := none,
              globalTags := some [("key2", "val2")], enabled := none }
    env := { sampleRate := none, rules := none,
             headerTags := some [("X-Test-Header", "my-tag-name-from-env")],
             globalTags := none, enabled := none }
    remote := { sampleRate := some (mkRat 1 2), rules := none,
                headerTags := some [("X-Test-Header", "my-tag-name-from-rc")],
                globalTags := none, enabled := none }
    enabledCurrent := true }

/-- Fixture: a configuration whose enabled latch has been driven false. -/
def disabledConfig : TracerConfig :=
  { serviceName := "my-service"
    envName := "my-env"
    runtimeID := "rid-1"
    code := ConfigLayer.empty
    env := ConfigLayer.empty
    remote := { sampleRate := none, rules := none, headerTags := none,
                globalTags := none, enabled := some false }
    enabledCurrent := false }

/-- Fixture: the first rule of the false-negative equality test, with
resource pattern "resource-*". -/
def ruleFalseNeg1 : SamplingRule :=
  { Service := some "test-*", Name := some "op-name?", Resource := some "resource-*",
    Tags := [("tag-a", "tv-a??")], Rate := mkRat 1 10, provenance := Provenance.unset }

/-- Fixture: the second rule of the false-negative equality test, identical
except for the semantically equivalent resource pattern "resource-**". -/
def ruleFalseNeg2 : SamplingRule :=
  { Service := some "test-*", Name := some "op-name?", Resource := some "resource-**",
    Tags := [("tag-a", "tv-a??")], Rate := mkRat 1 10, provenance := Provenance.unset }

/-- Fixture: a remote customer rule matching resource "abc" at rate 1. -/
def ruleAbc : SamplingRule :=
  { Service := some "my-service", Name := some "web.request", Resource := some "abc",
    Tags := [], Rate := mkRat 1 1, provenance := Provenance.customer }

/-- Fixture: a span of service "my-service" performing "web.request" on
resource "abc". -/
def spanAbc : Span :=
  { service := "my-service", name := "web.request", resource := "abc", tags := [] }

/-- Fixture: a span whose resource does not match ruleAbc. -/
def spanOther : Span :=
  { service := "my-service", name := "web.request", resource := "not_abc", tags := [] }

/-- Fixture: ruleFalseNeg1 with only the sample rate changed. -/
def ruleDifferentRate : SamplingRule :=
  { ruleFalseNeg1 with Rate := mkRat 2 10 }

/-- Fixture: the base configuration with a remote layer carrying a rule list
and a sampling rate, mirroring the remote-rules test payload. -/
def rcConfig : TracerConfig :=
  { baseConfig with
    remote := { sampleRate := some (mkRat 1 2), rules := some [ruleAbc],
                headerTags := none, globalTags := none, enabled := none } }

example : globMatch "resource-*" "resource-xyz" = true := by decide

example : globMatch "resource-*" "resource" = false := by decide

example : globMatch "op-name?" "op-name1" = true := by decide

example : globMatch "op-name?" "op-name" = false := by decide

example : globMatch "*" "" = true := by decide

example : globMatch "tv-a??" "tv-a11" = true := by decide

example : globMatch "tv-a??" "not-matching" = false := by decide

example : SamplingRule.Equals (some ruleFalseNeg1) (some ruleFalseNeg2) = false := by decide

example : SamplingRule.Equals (some ruleFalseNeg1) (some ruleFalseNeg1) = true := by decide

example : Equals [] [] = true := by decide

example : ruleAbc.matches spanAbc = true := by decide

example : ruleAbc.matches spanOther = false := by decide

/-- C5: for every trace ID and fixed rate, the keep/drop decision is a pure
deterministic function of the pair — repeated invocations coincide
trivially, and independent sampler instances holding the same rate produce
the identical decision for the same trace identifier. -/
theorem c5_sampling_decision_deterministic :
    (∀ s1 s2 : RateSampler, ∀ tid : ℕ,
        s1.rate = s2.rate → s1.sample tid = s2.sample tid) ∧
    (∀ s : RateSampler, ∀ tid : ℕ, s.sample tid = sampledByRate tid s.rate) := by
  constructor
  · intro s1 s2 tid h
    simp [RateSampler.sample, h]
  · intro s tid
    rfl

/-- Witness for C5: two independently constructed samplers with the same
rate, written differently, agree on a concrete trace identifier. -/
theorem c5_sampling_decision_deterministic_witness :
    (newRateSampler (1/2)).sample 12345 = (RateSampler.mk (2/4)).sample 12345 :=
  c5_sampling_decision_deterministic.1 _ _ 12345 (by norm_num [newRateSampler])

/-- C10: once tracing is disabled, the tracer's public operations degrade to
no-ops without errors — Extract returns a nil context and nil error on any
carrier, Inject returns a nil error, and StartSpan returns a nil span. -/
theorem c10_disabled_tracer_noops (c : TracerConfig) (h : c.enabledCurrent = false) :
    (∀ carrier, tracerExtract c carrier = .ok none) ∧
    (∀ ctx, tracerInject c ctx = .ok ()) ∧
    (∀ n, tracerStartSpan c n = none) := by
  refine ⟨?_, ?_, ?_⟩ <;> intro x <;>
    simp [tracerExtract, tracerInject, tracerStartSpan, h]

/-- Witness for C10: the disabled fixture configuration with the valid
traceparent carrier of the test suite. -/
theorem c10_disabled_tracer_noops_witness :
    tracerExtract disabledConfig
        [("traceparent", "00-12345678901234567890123456789012-1234567890123456-01")] =
      .ok none ∧
    tracerInject disabledConfig
        (some ⟨"00-12345678901234567890123456789012-1234567890123456-01"⟩) = .ok () ∧
    tracerStartSpan disabledConfig "noop" = none :=
  ⟨(c10_disabled_tracer_noops disabledConfig rfl).1 _,
   (c10_disabled_tracer_noops disabledConfig rfl).2.1 _,
   (c10_disabled_tracer_noops disabledConfig rfl).2.2 _⟩

/-- C2: the enabled flag is a one-way latch — once it is false, every
subsequent remote-config update (any payload, including an explicit
tracing_enabled true and the nil retraction) leaves it false; moreover a
successful update whose payload sets tracing_enabled false drives it
false. -/
theorem c2_enabled_one_way_latch :
    (∀ (c : TracerConfig) (p : Option RawPayload),
        c.enabledCurrent = false →
        ((applyRemoteUpdate c p).2.1).enabledCurrent = false) ∧
    (∀ (c : TracerConfig) (lib : ConfigLayer),
        lib.enabled = some false →
        ((applyRemoteUpdate c
            (some (RawPayload.wellFormed lib c.serviceName c.envName))).2.1).enabledCurrent =
          false) := by
  constructor
  · intro c p h
    match p with
    | none => simp [applyRemoteUpdate, recompute, h]
    | some (RawPayload.malformed msg) =>
      simp [applyRemoteUpdate, parsePayload, h]
    | some (RawPayload.wellFormed lib s e) =>
      by_cases hs : s = c.serviceName
      · by_cases he : e = c.envName
        · simp [applyRemoteUpdate, parsePayload, hs, he, recompute, h]
        · simp [applyRemoteUpdate, parsePayload, hs, he, h]
      · simp [applyRemoteUpdate, parsePayload, hs, h]
  · intro c lib h
    simp [applyRemoteUpdate, parsePayload, recompute, layeredEnabled, firstSome, h]

/-- Witness for C2: from the disabled fixture, an explicit remote
tracing_enabled true payload and a nil retraction both leave the flag
false, and an explicit disable payload drives the base fixture false. -/
theorem c2_enabled_one_way_latch_witness :
    ((applyRemoteUpdate disabledConfig
        (some (RawPayload.wellFormed
          ⟨none, none, none, none, some true⟩ "my-service" "my-env"))).2.1).enabledCurrent =
      false ∧
    ((applyRemoteUpdate disabledConfig none).2.1).enabledCurrent = false ∧
    ((applyRemoteUpdate baseConfig
        (some (RawPayload.wellFormed
          ⟨none, none, none, none, some false⟩ "my-service" "my-env"))).2.1).enabledCurrent =
      false :=
  ⟨c2_enabled_one_way_latch.1 _ _ rfl,
   c2_enabled_one_way_latch.1 _ _ rfl,
   c2_enabled_one_way_latch.2 baseConfig _ rfl⟩

/-- C3: applyRemoteUpdate validates in order — payload parse, then
service-target service, then service-target env; each failure returns an
Error status with the fixed message, leaves the configuration untouched,
and emits zero telemetry events. The service check fires for every env
value, so it precedes the env check. -/
theorem c3_validation_order_short_circuits :
    (∀ (c : TracerConfig) (msg : String),
        applyRemoteUpdate c (some (RawPayload.malformed msg)) =
          (⟨ApplyState.Error, msg⟩, c, [])) ∧
    (∀ (c : TracerConfig) (lib : ConfigLayer) (s e : String),
        s ≠ c.serviceName →
        applyRemoteUpdate c (some (RawPayload.wellFormed lib s e)) =
          (⟨ApplyState.Error, "service mismatch"⟩, c, [])) ∧
    (∀ (c : TracerConfig) (lib : ConfigLayer) (e : String),
        e ≠ c.envName →
        applyRemoteUpdate c (some (RawPayload.wellFormed lib c.serviceName e)) =
          (⟨ApplyState.Error, "env mismatch"⟩, c, [])) := by
  refine ⟨?_, ?_, ?_⟩
  · intro c msg
    rfl
  · intro c lib s e hs
    simp [applyRemoteUpdate, parsePayload, hs]
  · intro c lib e he
    simp [applyRemoteUpdate, parsePayload, he]

/-- Witness for C3: a malformed payload, a payload whose service and env
both differ (reporting "service mismatch", so service is checked first),
and a payload with matching service but differing env. -/
theorem c3_validation_order_short_circuits_witness :
    applyRemoteUpdate baseConfig (some (RawPayload.malformed "parse error")) =
      (⟨ApplyState.Error, "parse error"⟩, baseConfig, []) ∧
    applyRemoteUpdate baseConfig
        (some (RawPayload.wellFormed ConfigLayer.empty "other-service" "other-env")) =
      (⟨ApplyState.Error, "service mismatch"⟩, baseConfig, []) ∧
    applyRemoteUpdate baseConfig
        (some (RawPayload.wellFormed ConfigLayer.empty "my-service" "other-env")) =
      (⟨ApplyState.Error, "env mismatch"⟩, baseConfig, []) :=
  ⟨c3_validation_order_short_circuits.1 baseConfig "parse error",
   c3_validation_order_short_circuits.2.1 baseConfig ConfigLayer.empty
     "other-service" "other-env" (by decide),
   c3_validation_order_short_circuits.2.2 baseConfig ConfigLayer.empty
     "other-env" (by decide)⟩

lemma globMatchL_star (ps : List Char) (s : List Char) :
    globMatchL ('*' :: ps) s = s.tails.any fun t => globMatchL ps t := by
  simp [globMatchL]

lemma globMatchL_single_star (s : List Char) : globMatchL ['*'] s = true := by
  rw [globMatchL_star]
  refine List.any_eq_true.mpr ⟨[], ?_, ?_⟩
  · exact (List.mem_tails _ _).mpr List.nil_suffix
  · rfl

lemma globMatchL_double_star (s : List Char) : globMatchL ['*', '*'] s = true := by
  rw [globMatchL_star]
  refine List.any_eq_true.mpr ⟨s, ?_, ?_⟩
  · exact (List.mem_tails _ _).mpr (List.suffix_refl s)
  · exact globMatchL_single_star s

lemma globMatchL_append_congr (lit : List Char) (hstar : '*' ∉ lit)
    (ps1 ps2 : List Char) (h : ∀ t, globMatchL ps1 t = globMatchL ps2 t) :
    ∀ s, globMatchL (lit ++ ps1) s = globMatchL (lit ++ ps2) s := by
  revert hstar
  induction lit with
  | nil =>
    intro _
    exact h
  | cons c cs ih =>
    intro hstar
    have hc : ¬c = '*' := fun hcc => hstar (by simp [hcc])
    have hcs : '*' ∉ cs := fun hm => hstar (by simp [hm])
    intro s
    cases s with
    | nil => simp [globMatchL, hc]
    | cons d t => simp [globMatchL, hc, ih hcs t]

lemma regexEqualsFalseNegative_true_iff (x y : Option String) :
    regexEqualsFalseNegative x y = true ↔ x = y := by
  cases x <;> cases y <;> simp [regexEqualsFalseNegative]

lemma tagsEqual_self (t : List (String × String)) : tagsEqual t t = true := by
  simp [tagsEqual, List.all_eq_true]

lemma tagsEqual_comm (a b : List (String × String)) : tagsEqual a b = tagsEqual b a := by
  simp [tagsEqual, Bool.and_comm]

lemma equals_some_iff (a b : SamplingRule) :
    SamplingRule.Equals (some a) (some b) = true ↔
      a.Service = b.Service ∧ a.Name = b.Name ∧ a.Resource = b.Resource ∧
      tagsEqual a.Tags b.Tags = true ∧ a.Rate = b.Rate ∧ a.provenance = b.provenance := by
  simp [SamplingRule.Equals, Bool.and_eq_true, regexEqualsFalseNegative_true_iff, and_assoc]

/-- C7: matcher and rule equality is string equality of the source
patterns, not semantic equivalence — rules with syntactically different
resource patterns are unequal even when the patterns match exactly the same
language, as with "resource-*" versus "resource-**". -/
theorem c7_pattern_equality_syntactic_not_semantic :
    (∀ r1 r2 : SamplingRule, r1.Resource ≠ r2.Resource →
        SamplingRule.Equals (some r1) (some r2) = false) ∧
    (∀ x y : Option String, regexEqualsFalseNegative x y = true ↔ x = y) ∧
    (∀ s : String, globMatch "resource-*" s = globMatch "resource-**" s) ∧
    SamplingRule.Equals (some ruleFalseNeg1) (some ruleFalseNeg2) = false := by
  refine ⟨?_, regexEqualsFalseNegative_true_iff, ?_, by decide⟩
  · intro r1 r2 hne
    cases hq : SamplingRule.Equals (some r1) (some r2) with
    | false => rfl
    | true =>
      exfalso
      exact hne ((equals_some_iff r1 r2).mp hq).2.2.1
  · intro s
    have h1 : "resource-*".toList = "resource-".toList ++ ['*'] := by decide
    have h2 : "resource-**".toList = "resource-".toList ++ ['*', '*'] := by decide
    rw [globMatch, globMatch, h1, h2]
    exact globMatchL_append_congr "resource-".toList (by decide) ['*'] ['*', '*']
      (fun t => by rw [globMatchL_single_star, globMatchL_double_star]) s.toList

/-- Witness for C7: the two semantically equivalent but syntactically
different fixture rules compare as unequal. -/
theorem c7_pattern_equality_syntactic_not_semantic_witness :
    SamplingRule.Equals (some ruleFalseNeg1) (some ruleFalseNeg2) = false :=
  c7_pattern_equality_syntactic_not_semantic.1 ruleFalseNeg1 ruleFalseNeg2 (by decide)

/-- C8: rule equality is reflexive and symmetric, nil versus non-nil is
unequal in both directions, nil versus nil is equal, and a difference in
any single field (service, name, resource, tag-pattern map, or sample
rate) makes two rules unequal. -/
theorem c8_rule_equals_algebra :
    (∀ r : SamplingRule, SamplingRule.Equals (some r) (some r) = true) ∧
    (∀ a b : Option SamplingRule, SamplingRule.Equals a b = SamplingRule.Equals b a) ∧
    (∀ r : SamplingRule, SamplingRule.Equals (some r) none = false ∧
        SamplingRule.Equals none (some r) = false) ∧
    SamplingRule.Equals none none = true ∧
    (∀ r1 r2 : SamplingRule,
        (r1.Service ≠ r2.Service ∨ r1.Name ≠ r2.Name ∨ r1.Resource ≠ r2.Resource ∨
          tagsEqual r1.Tags r2.Tags = false ∨ r1.Rate ≠ r2.Rate) →
        SamplingRule.Equals (some r1) (some r2) = false) := by
  refine ⟨?_, ?_, fun r => ⟨rfl, rfl⟩, rfl, ?_⟩
  · intro r
    exact (equals_some_iff r r).mpr ⟨rfl, rfl, rfl, tagsEqual_self r.Tags, rfl, rfl⟩
  · intro a b
    cases a with
    | none => cases b <;> rfl
    | some x =>
      cases b with
      | none => rfl
      | some y =>
        cases hx : SamplingRule.Equals (some x) (some y) <;>
          cases hy : SamplingRule.Equals (some y) (some x) <;> try rfl
        · obtain ⟨h1, h2, h3, h4, h5, h6⟩ := (equals_some_iff y x).mp hy
          have hx' : SamplingRule.Equals (some x) (some y) = true :=
            (equals_some_iff x y).mpr
              ⟨h1.symm, h2.symm, h3.symm, by rw [tagsEqual_comm]; exact h4,
               h5.symm, h6.symm⟩
          rw [hx] at hx'
          exact absurd hx' (by simp)
        · obtain ⟨h1, h2, h3, h4, h5, h6⟩ := (equals_some_iff x y).mp hx
          have hy' : SamplingRule.Equals (some y) (some x) = true :=
            (equals_some_iff y x).mpr
              ⟨h1.symm, h2.symm, h3.symm, by rw [tagsEqual_comm]; exact h4,
               h5.symm, h6.symm⟩
          rw [hy] at hy'
          exact absurd hy' (by simp)
  · intro r1 r2 hd
    cases hq : SamplingRule.Equals (some r1) (some r2) with
    | false => rfl
    | true =>
      exfalso
      obtain ⟨h1, h2, h3, h4, h5, _⟩ := (equals_some_iff r1 r2).mp hq
      rcases hd with h | h | h | h | h
      · exact h h1
      · exact h h2
      · exact h h3
      · rw [h4] at h
        exact absurd h (by simp)
      · exact h h5

/-- Witness for C8: two fixture rules differing only in the sample rate are
unequal, and a rule is unequal to nil. -/
theorem c8_rule_equals_algebra_witness :
    SamplingRule.Equals (some ruleFalseNeg1) (some ruleDifferentRate) = false ∧
    SamplingRule.Equals (some ruleFalseNeg1) none = false :=
  ⟨c8_rule_equals_algebra.2.2.2.2 ruleFalseNeg1 ruleDifferentRate
      (Or.inr (Or.inr (Or.inr (Or.inr (by decide))))),
   (c8_rule_equals_algebra.2.2.1 ruleFalseNeg1).1⟩

lemma setDecisionMaker_preserved (t : TraceState) (d : String)
    (h : t.propagatingDM = some d) (keep : Bool) (n : SamplerName) :
    (setDecisionMaker t keep n).propagatingDM = some d := by
  simp [setDecisionMaker, h]

lemma runSamplers_preserved (steps : List (Bool × SamplerName)) :
    ∀ (t : TraceState) (d : String), t.propagatingDM = some d →
      (runSamplers t steps).propagatingDM = some d := by
  induction steps with
  | nil =>
    intro t d h
    exact h
  | cons st rest ih =>
    intro t d h
    have : runSamplers t (st :: rest) = runSamplers (setDecisionMaker t st.1 st.2) rest := rfl
    rw [this]
    exact ih _ d (setDecisionMaker_preserved t d h st.1 st.2)

lemma runSamplers_from_none (steps : List (Bool × SamplerName)) :
    (runSamplers ⟨none⟩ steps).propagatingDM =
      (steps.find? fun st => st.1).map fun st => samplerToDM st.2 := by
  induction steps with
  | nil => rfl
  | cons st rest ih =>
    have hstep : runSamplers (⟨none⟩ : TraceState) (st :: rest) =
        runSamplers (setDecisionMaker ⟨none⟩ st.1 st.2) rest := rfl
    cases hk : st.1 with
    | false =>
      have hset : setDecisionMaker ⟨none⟩ st.1 st.2 = ⟨none⟩ := by
        simp [setDecisionMaker, hk]
      rw [hstep, hset, ih, List.find?_cons_of_neg _ (by simp [hk])]
    | true =>
      have hset : setDecisionMaker ⟨none⟩ st.1 st.2 = ⟨some (samplerToDM st.2)⟩ := by
        simp [setDecisionMaker, hk, Option.isNone]
      rw [hstep, hset, List.find?_cons_of_pos _ (by simp [hk])]
      simp [runSamplers_preserved rest ⟨some (samplerToDM st.2)⟩ (samplerToDM st.2) rfl]

/-- C6: at most one decision-maker value is ever set on a trace — it is
written only by the first sampler producing a keep decision when none is
present, its value distinguishes the deciding mechanisms, and starting a
child span propagates it unchanged. -/
theorem c6_decision_maker_once_per_trace :
    (∀ (t : TraceState) (d : String) (steps : List (Bool × SamplerName)),
        t.propagatingDM = some d → (runSamplers t steps).propagatingDM = some d) ∧
    (∀ steps : List (Bool × SamplerName),
        (runSamplers ⟨none⟩ steps).propagatingDM =
          (steps.find? fun st => st.1).map fun st => samplerToDM st.2) ∧
    (∀ t : TraceState, childSpanDM t = t.propagatingDM) ∧
    List.Pairwise (fun a b => a ≠ b)
      [samplerToDM SamplerName.Default, samplerToDM SamplerName.RuleRate,
       samplerToDM SamplerName.RemoteUserRule, samplerToDM SamplerName.RemoteDynamicRule] := by
  refine ⟨?_, runSamplers_from_none, fun t => rfl, by decide⟩
  intro t d steps h
  exact runSamplers_preserved steps t d h

/-- Witness for C6: a trace whose decision-maker tag is already set keeps it
through a later keep decision by a different mechanism. -/
theorem c6_decision_maker_once_per_trace_witness :
    (runSamplers ⟨some "-3"⟩ [(true, SamplerName.RemoteUserRule)]).propagatingDM = some "-3" :=
  c6_decision_maker_once_per_trace.1 ⟨some "-3"⟩ "-3" [(true, SamplerName.RemoteUserRule)] rfl

lemma find?_append_skip {α : Type} (p : α → Bool) (pre rest : List α)
    (h : ∀ x ∈ pre, p x = false) :
    List.find? p (pre ++ rest) = List.find? p rest := by
  induction pre with
  | nil => rfl
  | cons a l ih =>
    have ha : p a = false := h a (by simp)
    rw [List.cons_append, List.find?_cons_of_neg _ (by simp [ha])]
    exact ih fun x hx => h x (by simp [hx])

/-- C1: the RulesSampler applies the rate of the first rule, in declaration
order, whose matches predicate holds for the span; when no rule matches,
the applied rate is the global fallback rate, which is the remote
tracing_sampling_rate when set, else the environment/code rate, else the
default 1.0. -/
theorem c1_first_matching_rule_rate_applied :
    (∀ (pre post : List SamplingRule) (r : SamplingRule) (fallback : ℚ) (s : Span),
        (∀ r' ∈ pre, r'.matches s = false) → r.matches s = true →
        rulesSamplerRate (pre ++ r :: post) fallback s = r.Rate) ∧
    (∀ (rules : List SamplingRule) (fallback : ℚ) (s : Span),
        (∀ r' ∈ rules, r'.matches s = false) →
        rulesSamplerRate rules fallback s = fallback) ∧
    (∀ (c : TracerConfig) (s : Span),
        (∀ r' ∈ effRules c, r'.matches s = false) →
        appliedRate c s = globalSampleRate c) ∧
    (∀ (c : TracerConfig) (q : ℚ),
        c.remote.sampleRate = some q → globalSampleRate c = q) ∧
    (∀ (c : TracerConfig) (q : ℚ),
        c.remote.sampleRate = none → c.env.sampleRate = some q →
        globalSampleRate c = q) ∧
    (∀ (c : TracerConfig) (q : ℚ),
        c.remote.sampleRate = none → c.env.sampleRate = none →
        c.code.sampleRate = some q → globalSampleRate c = q) ∧
    (∀ c : TracerConfig,
        c.remote.sampleRate = none → c.env.sampleRate = none →
        c.code.sampleRate = none → globalSampleRate c = 1) := by
  have hnone : ∀ (rules : List SamplingRule) (fallback : ℚ) (s : Span),
      (∀ r' ∈ rules, r'.matches s = false) →
      rulesSamplerRate rules fallback s = fallback := by
    intro rules fallback s h
    have : rules.find? (fun r => r.matches s) = none :=
      List.find?_eq_none.mpr fun x hx => by simp [h x hx]
    simp [rulesSamplerRate, this]
  refine ⟨?_, hnone, ?_, ?_, ?_, ?_, ?_⟩
  · intro pre post r fallback s hpre hr
    have h1 : List.find? (fun r' => r'.matches s) (pre ++ r :: post) =
        List.find? (fun r' => r'.matches s) (r :: post) :=
      find?_append_skip _ pre _ hpre
    rw [rulesSamplerRate, h1,
      @List.find?_cons_of_pos _ (fun r' => r'.matches s) r post hr]
  · intro c s h
    exact hnone (effRules c) (globalSampleRate c) s h
  · intro c q h
    simp [globalSampleRate, effSampleRateOpt, firstSome, h]
  · intro c q h1 h2
    simp [globalSampleRate, effSampleRateOpt, firstSome, h1, h2]
  · intro c q h1 h2 h3
    simp [globalSampleRate, effSampleRateOpt, firstSome, h1, h2, h3]
  · intro c h1 h2 h3
    simp [globalSampleRate, effSampleRateOpt, firstSome, h1, h2, h3]

/-- Witness for C1: under the remote-rules fixture configuration the
matching span receives the rule rate 1.0, a non-matching span receives the
global fallback, and the fallback is the remote rate 0.5. -/
theorem c1_first_matching_rule_rate_applied_witness :
    rulesSamplerRate [ruleAbc] (mkRat 1 2) spanAbc = ruleAbc.Rate ∧
    appliedRate rcConfig spanOther = globalSampleRate rcConfig ∧
    globalSampleRate rcConfig = mkRat 1 2 :=
  ⟨c1_first_matching_rule_rate_applied.1 [] [] ruleAbc (mkRat 1 2) spanAbc
      (by simp) (by decide),
   c1_first_matching_rule_rate_applied.2.2.1 rcConfig spanOther (by decide),
   c1_first_matching_rule_rate_applied.2.2.2.1 rcConfig (mkRat 1 2) rfl⟩

/-- C4: applying a nil payload retracts the remote layer and restores, for
every field the remote layer could have overridden, the pre-remote
effective value — falling back per field independently to the local/env
layer first and only then to the code layer. -/
theorem c4_nil_payload_reverts_per_field (c : TracerConfig) :
    (applyRemoteUpdate c none).1.state = ApplyState.Acknowledged ∧
    (∀ v, c.env.sampleRate = some v →
        effSampleRateOpt (applyRemoteUpdate c none).2.1 = some v) ∧
    (c.env.sampleRate = none →
        effSampleRateOpt (applyRemoteUpdate c none).2.1 = c.code.sampleRate) ∧
    (∀ v, c.env.rules = some v →
        effRulesOpt (applyRemoteUpdate c none).2.1 = some v) ∧
    (c.env.rules = none →
        effRulesOpt (applyRemoteUpdate c none).2.1 = c.code.rules) ∧
    (∀ v, c.env.headerTags = some v →
        effHeaderTagsOpt (applyRemoteUpdate c none).2.1 = some v) ∧
    (c.env.headerTags = none →
        effHeaderTagsOpt (applyRemoteUpdate c none).2.1 = c.code.headerTags) ∧
    (∀ v, c.env.globalTags = some v →
        effGlobalTagsOpt (applyRemoteUpdate c none).2.1 = some v) ∧
    (c.env.globalTags = none →
        effGlobalTagsOpt (applyRemoteUpdate c none).2.1 = c.code.globalTags) := by
  refine ⟨rfl, ?_, ?_, ?_, ?_, ?_, ?_, ?_, ?_⟩
  · intro v h
    simp [applyRemoteUpdate, recompute, effSampleRateOpt, ConfigLayer.empty, firstSome, h]
  · intro h
    simp [applyRemoteUpdate, recompute, effSampleRateOpt, ConfigLayer.empty, firstSome, h]
  · intro v h
    simp [applyRemoteUpdate, recompute, effRulesOpt, ConfigLayer.empty, firstSome, h]
  · intro h
    simp [applyRemoteUpdate, recompute, effRulesOpt, ConfigLayer.empty, firstSome, h]
  · intro v h
    simp [applyRemoteUpdate, recompute, effHeaderTagsOpt, ConfigLayer.empty, firstSome, h]
  · intro h
    simp [applyRemoteUpdate, recompute, effHeaderTagsOpt, ConfigLayer.empty, firstSome, h]
  · intro v h
    simp [applyRemoteUpdate, recompute, effGlobalTagsOpt, ConfigLayer.empty, firstSome, h]
  · intro h
    simp [applyRemoteUpdate, recompute, effGlobalTagsOpt, ConfigLayer.empty, firstSome, h]

/-- Witness for C4: retracting the base fixture's remote layer restores the
env header tags while the sample rate independently falls back past the
empty env layer to the code layer's value. -/
theorem c4_nil_payload_reverts_per_field_witness :
    (applyRemoteUpdate baseConfig none).1.state = ApplyState.Acknowledged ∧
    effHeaderTagsOpt (applyRemoteUpdate baseConfig none).2.1 =
      some [("X-Test-Header", "my-tag-name-from-env")] ∧
    effSampleRateOpt (applyRemoteUpdate baseConfig none).2.1 = some (mkRat 3 10) :=
  ⟨(c4_nil_payload_reverts_per_field baseConfig).1,
   (c4_nil_payload_reverts_per_field baseConfig).2.2.2.2.2.1 _ rfl,
   ((c4_nil_payload_reverts_per_field baseConfig).2.2.1 rfl).trans rfl⟩

lemma slice_equals_true_iff (a b : List SamplingRule) :
    Equals a b = true ↔
      (a.length = b.length ∧
        ∀ p ∈ List.zip a b, SamplingRule.Equals (some p.1) (some p.2) = true) := by
  simp [Equals, Bool.and_eq_true, List.all_eq_true]

/-- C9: slice equality accepts two nil/empty slices, rejects nil against a
non-empty slice in both directions, is length-sensitive, and holds exactly
when element-wise rule equality holds at each index. -/
theorem c9_slice_equality :
    Equals [] [] = true ∧
    (∀ s : List SamplingRule, s ≠ [] → Equals [] s = false ∧ Equals s [] = false) ∧
    (∀ a b : List SamplingRule, a.length ≠ b.length → Equals a b = false) ∧
    (∀ a b : List SamplingRule,
        Equals a b = true ↔
          (a.length = b.length ∧
            ∀ (i : ℕ) (h1 : i < a.length) (h2 : i < b.length),
              SamplingRule.Equals (some (a.get ⟨i, h1⟩)) (some (b.get ⟨i, h2⟩)) = true)) := by
  have hlen : ∀ a b : List SamplingRule, a.length ≠ b.length → Equals a b = false := by
    intro a b hne
    cases hq : Equals a b with
    | false => rfl
    | true => exact absurd ((slice_equals_true_iff a b).mp hq).1 hne
  refine ⟨rfl, ?_, hlen, ?_⟩
  · intro s hs
    have h0 : s.length ≠ 0 := fun h => hs (List.length_eq_zero.mp h)
    exact ⟨hlen [] s (Ne.symm h0), hlen s [] h0⟩
  · intro a b
    rw [slice_equals_true_iff]
    constructor
    · rintro ⟨hl, hall⟩
      refine ⟨hl, ?_⟩
      intro i h1 h2
      have hz : i < (List.zip a b).length := by
        rw [List.length_zip]
        exact lt_inf_iff.mpr ⟨h1, h2⟩
      have hmem := List.get_mem (List.zip a b) i hz
      have hget := @List.get_zip _ _ a b ⟨i, hz⟩
      rw [hget] at hmem
      exact hall _ hmem
    · rintro ⟨hl, hidx⟩
      refine ⟨hl, ?_⟩
      intro p hp
      obtain ⟨n, hn⟩ := List.mem_iff_get.mp hp
      rcases n with ⟨i, hi⟩
      have hlen2 : i < a.length ⊓ b.length := by rwa [List.length_zip] at hi
      have hga : i < a.length := (lt_inf_iff.mp hlen2).1
      have hgb : i < b.length := (lt_inf_iff.mp hlen2).2
      have hget := @List.get_zip _ _ a b ⟨i, hi⟩
      rw [hget] at hn
      rw [← hn]
      exact hidx i hga hgb

/-- Witness for C9: nil against a non-empty singleton slice is unequal in
both directions, and two slices of different lengths are unequal. -/
theorem c9_slice_equality_witness :
    (Equals [] [ruleAbc] = false ∧ Equals [ruleAbc] [] = false) ∧
    Equals [ruleAbc] [ruleAbc, ruleAbc] = false :=
  ⟨c9_slice_equality.2.1 [ruleAbc] (by simp),
   c9_slice_equality.2.2.1 [ruleAbc] [ruleAbc, ruleAbc] (by simp)⟩

end tracer
